import Mathlib

/-!
Verification of the wheel-deals spin-issuance and redemption protocol.

This file gives a shallow embedding of the core logic of the repository:
  * `src/lib/spins.ts`   — `generateCode`, `createSpin`, `redeemSpinByCode`
  * `src/lib/redeemRate.ts` — `getRedeemRateForMerchantLast7Days`
  * `src/components/Wheel.tsx` — `pickWeightedIndex` and the `spin` guard

The persisted Firestore documents are modelled by the `Store` structure
(spin records, per-(user, merchant, day) quota counters, and the two daily
aggregate counters).  JavaScript numbers that hold integral millisecond
timestamps or counters are modelled as `Int`/`Nat`; wheel weights and the
redeem rate are modelled as `Rat`.  `Math.random()` is made an explicit
parameter wherever the source consumes it.
-/

/-! ### JavaScript string primitives used by the source -/

/-- The set of characters removed by ECMAScript `String.prototype.trim`
(WhiteSpace ∪ LineTerminator), identified by code point. -/
def jsWhitespaceChar (c : Char) : Bool :=
  decide (c.toNat = 9 ∨ c.toNat = 10 ∨ c.toNat = 11 ∨ c.toNat = 12 ∨ c.toNat = 13 ∨
    c.toNat = 32 ∨ c.toNat = 160 ∨ c.toNat = 5760 ∨
    (8192 ≤ c.toNat ∧ c.toNat ≤ 8202) ∨ c.toNat = 8232 ∨ c.toNat = 8233 ∨
    c.toNat = 8239 ∨ c.toNat = 8287 ∨ c.toNat = 12288 ∨ c.toNat = 65279)

/-- List-level model of `String.prototype.trim`: drop leading whitespace, then
drop trailing whitespace (via reverse). -/
def jsTrimList (l : List Char) : List Char :=
  ((l.dropWhile jsWhitespaceChar).reverse.dropWhile jsWhitespaceChar).reverse

/-- Model of JavaScript `s.trim()`. -/
def jsTrim (s : String) : String :=
  String.mk (jsTrimList s.data)

/-- Model of JavaScript `s.toUpperCase()`.  All strings handled by this code
base are ASCII, on which `toUpperCase` acts character-wise exactly as
`Char.toUpper` (maps `a`–`z` to `A`–`Z`, fixes everything else). -/
def jsToUpper (s : String) : String :=
  String.mk (s.data.map Char.toUpper)

/-- The normalization applied by `redeemSpinByCode` (src/lib/spins.ts:184):
`(code || "").trim().toUpperCase()`.  On strings, `code || ""` is the
identity (the only falsy string is `""`, which maps to `""`). -/
def normalizeCode (s : String) : String :=
  jsToUpper (jsTrim s)

/-- Model of JavaScript `s.slice(a, b)` for `0 ≤ a ≤ b` (character indices,
clamped to the string's length). -/
def jsSlice (s : String) (a b : Nat) : String :=
  String.mk ((s.data.drop a).take (b - a))

/-! ### Code generator (src/lib/spins.ts:39-42)

`generateCode` is
`const part = Math.random().toString(36).slice(2, 8).toUpperCase();
 return "WD-" + part;`.

`Math.random()` returns a dyadic rational `r` in `[0, 1)`.  Since 2 divides
36, every such `r` has a finite base-36 fractional expansion, and
`r.toString(36)` renders it as `"0"` when `r = 0` and as `"0."` followed by
the (nonempty, minimal-length) digit string otherwise.  We therefore take the
random source to be the list of base-36 fraction digits of `r`. -/

/-- The character JavaScript uses for a base-36 digit: `0`–`9` then `a`–`z`
(lowercase). -/
def base36Char (d : Fin 36) : Char :=
  if d.val < 10 then Char.ofNat (48 + d.val) else Char.ofNat (97 + (d.val - 10))

/-- `r.toString(36)` for `r ∈ [0,1)` with fraction digits `digits`. -/
def randToString36 (digits : List (Fin 36)) : String :=
  if digits.isEmpty then "0" else "0." ++ String.mk (digits.map base36Char)

/-- Model of `generateCode` (src/lib/spins.ts:39-42), as a function of the
base-36 fraction digits of the value returned by `Math.random()`. -/
def generateCode (digits : List (Fin 36)) : String :=
  "WD-" ++ jsToUpper (jsSlice (randToString36 digits) 2 8)

/-! ### Data model (src/lib/spins.ts:17-37 and the Firestore documents) -/

/-- `SpinStatus` (src/lib/spins.ts:17). -/
inductive SpinStatus
  | issued
  | redeemed
deriving DecidableEq, Repr

/-- A document of the `spins` collection (`SpinDoc`, src/lib/spins.ts:19-37)
together with its document id.  Timestamps are epoch milliseconds. -/
structure SpinRec where
  id : String
  uid : String
  merchantId : String
  prizeLabel : String
  code : String
  status : SpinStatus
  dateKey : String
  createdAt : Int
  expiresAt : Int
  redeemedAt : Option Int
deriving DecidableEq, Repr

/-- The persisted state touched by the core: the `spins` collection, the
per-(user, merchant, day) quota documents
`users/{uid}/merchantLimits/{merchantId}/days/{dateKey}` (absent ↦ `none`),
and the two daily aggregates (absent ↦ count `0`, matching the
`increment(1)`-with-merge writes). -/
structure Store where
  spins : List SpinRec
  quota : String → String → String → Option Int
  merchantDaily : String → String → Int
  userMerchantDaily : String → String → String → Int

/-- The value returned by a successful `createSpin`
(src/lib/spins.ts:169). -/
structure CreateOk where
  id : String
  code : String
  remainingAfter : Int
  expiresAt : Int
deriving DecidableEq, Repr

/-- Committed quota state after `tx.set`/`tx.update` on the limit document
for one key. -/
def setQuota (q : String → String → String → Option Int)
    (uid mid dk : String) (v : Int) : String → String → String → Option Int :=
  fun u m d => if u = uid ∧ m = mid ∧ d = dk then some v else q u m d

/-- Committed state of `merchantStats/{merchantId}/daily/{dateKey}` after a
`spinsCount: increment(1)` merge write. -/
def bumpMerchantDaily (f : String → String → Int) (mid dk : String) :
    String → String → Int :=
  fun m d => if m = mid ∧ d = dk then f m d + 1 else f m d

/-- Committed state of `userMerchantStats/{uid}_{merchantId}/daily/{dateKey}`
after a `spinsCount: increment(1)` merge write. -/
def bumpUserMerchantDaily (f : String → String → String → Int)
    (uid mid dk : String) : String → String → String → Int :=
  fun u m d => if u = uid ∧ m = mid ∧ d = dk then f u m d + 1 else f u m d

/-- The `remaining` value read inside the transaction
(src/lib/spins.ts:104-121): the stored counter if the limit document exists,
otherwise `dailyLimit` (lazy initialization). -/
def quotaRemaining (s : Store) (uid mid dk : String) (dailyLimit : Int) : Int :=
  match s.quota uid mid dk with
  | none => dailyLimit
  | some r => r

/-- `expiresAtInDays` (src/lib/spins.ts:52-55): `Date.now() + days·24·60·60·1000`
milliseconds, evaluated on the *client* clock before the transaction runs. -/
def expiresAtInDays (clientNow : Int) (days : Int) : Int :=
  clientNow + days * 24 * 60 * 60 * 1000

/-- Model of `createSpin` (src/lib/spins.ts:67-173).

Explicit environment parameters: `dateKey` (= `todayKeyLocal()`), `code`
(= `generateCode()`), `spinId` (the pre-generated document id), `clientNow`
(the client clock used by `expiresAtInDays`), and `serverNow` (the value the
server writes for each `serverTimestamp()` sentinel at commit time).

The body models the `runTransaction` block: on `remaining ≤ 0` the thrown
error aborts the transaction, so none of the buffered writes commit and the
store is returned unchanged.  On success the committed limit document holds
`remaining - 1` in both branches (in the fresh branch the source first
`tx.set`s it to `dailyLimit` and then `tx.update`s it to `remaining - 1`
within the same transaction). -/
def createSpin (s : Store) (uid merchantId prizeLabel : String)
    (dailyLimit : Int) (dateKey code spinId : String)
    (clientNow serverNow : Int) : Except String CreateOk × Store :=
  let expiresAt := expiresAtInDays clientNow 7
  let remaining := quotaRemaining s uid merchantId dateKey dailyLimit
  if remaining ≤ 0 then
    (Except.error "Daily limit reached for this merchant.", s)
  else
    let newSpin : SpinRec :=
      { id := spinId
        uid := uid
        merchantId := merchantId
        prizeLabel := prizeLabel
        code := code
        status := SpinStatus.issued
        dateKey := dateKey
        createdAt := serverNow
        expiresAt := expiresAt
        redeemedAt := none }
    (Except.ok { id := spinId, code := code,
                 remainingAfter := remaining - 1, expiresAt := expiresAt },
     { spins := s.spins ++ [newSpin]
       quota := setQuota s.quota uid merchantId dateKey (remaining - 1)
       merchantDaily := bumpMerchantDaily s.merchantDaily merchantId dateKey
       userMerchantDaily :=
         bumpUserMerchantDaily s.userMerchantDaily uid merchantId dateKey })

/-! ### Redemption (src/lib/spins.ts:176-217)

`redeemSpinByCode` is *not* a transaction: it performs a plain query
(`getDocs`) followed by a plain unconditional `updateDoc`.  We model the two
halves separately so that the sequential function and interleavings of
concurrent calls share the same code. -/

/-- The outcome of `redeemSpinByCode`, mirroring the source's discriminated
union of return values. -/
inductive RedeemResult
  | notFound
  | alreadyRedeemed
  | expired
  | ok (prizeLabel : String) (merchantId : String)
deriving DecidableEq, Repr

/-- Phase 1 of `redeemSpinByCode` (src/lib/spins.ts:184-205): normalize the
code, query `spins` for the first document whose `code` equals it, and run
the status and expiry checks.  Returns either an early failure result or the
data needed for the write: the document id, prize label and merchant id.

The expiry check models the source's
`expMs && Date.now() > expMs`: since `expiresAt` is a `Timestamp`,
`exp?.toMillis?.()` always yields its millisecond value `expMs`, and the
JavaScript truthiness test skips the check exactly when `expMs = 0`. -/
def redeemRead (code : String) (now : Int) (s : Store) :
    Sum RedeemResult (String × String × String) :=
  let cleaned := normalizeCode code
  match s.spins.find? (fun r => r.code == cleaned) with
  | none => Sum.inl RedeemResult.notFound
  | some d =>
    if d.status = SpinStatus.redeemed then
      Sum.inl RedeemResult.alreadyRedeemed
    else if d.expiresAt ≠ 0 ∧ now > d.expiresAt then
      Sum.inl RedeemResult.expired
    else
      Sum.inr (d.id, d.prizeLabel, d.merchantId)

/-- Phase 2 of `redeemSpinByCode` (src/lib/spins.ts:207-210): the
unconditional `updateDoc` setting `status: "redeemed"` and
`redeemedAt: serverTimestamp()` on the document with the given id. -/
def redeemWrite (docId : String) (serverNow : Int) (s : Store) : Store :=
  { s with
    spins := s.spins.map fun r =>
      if r.id = docId then
        { r with status := SpinStatus.redeemed, redeemedAt := some serverNow }
      else r }

/-- Model of `redeemSpinByCode` (src/lib/spins.ts:183-217) run without
interference: phase 1, then (on success) phase 2. -/
def redeemSpinByCode (code : String) (now serverNow : Int) (s : Store) :
    RedeemResult × Store :=
  match redeemRead code now s with
  | Sum.inl res => (res, s)
  | Sum.inr (docId, pl, mid) =>
    (RedeemResult.ok pl mid, redeemWrite docId serverNow s)

/-- The racy interleaving of two concurrent `redeemSpinByCode` calls for the
same code in which *both* calls execute their `getDocs` query against the
initial store before either executes its `updateDoc`.  Nothing in the source
prevents this schedule: the read and the write are separate awaited calls
with no transaction or conditional write between them.  Returns the result of
each call and the final store. -/
def raceBothRedeem (code : String) (t1 t2 : Int) (s : Store) :
    RedeemResult × RedeemResult × Store :=
  match redeemRead code t1 s, redeemRead code t2 s with
  | Sum.inl r1, Sum.inl r2 => (r1, r2, s)
  | Sum.inl r1, Sum.inr (d2, p2, m2) =>
    (r1, RedeemResult.ok p2 m2, redeemWrite d2 t2 s)
  | Sum.inr (d1, p1, m1), Sum.inl r2 =>
    (RedeemResult.ok p1 m1, r2, redeemWrite d1 t1 s)
  | Sum.inr (d1, p1, m1), Sum.inr (d2, p2, m2) =>
    (RedeemResult.ok p1 m1, RedeemResult.ok p2 m2,
     redeemWrite d2 t2 (redeemWrite d1 t1 s))

/-! ### Prize selector (src/components/Wheel.tsx)

Weights are JavaScript numbers; the values supplied by the merchant
configuration are ordinary finite numbers, modelled as `Rat`.  The
`Number(it.weight) || 0` coercion maps falsy values to `0`, which on `Rat` is
the identity. -/

/-- `WheelItem` (src/components/Wheel.tsx:5-8). -/
structure WheelItem where
  label : String
  weight : Rat
deriving DecidableEq, Repr

/-- `clamp` (src/components/Wheel.tsx:16-18). -/
def clampR (n lo hi : Rat) : Rat :=
  max lo (min hi n)

/-- `totalWeight` (src/components/Wheel.tsx:245-248):
`items.reduce((sum, it) => sum + (Number(it.weight) || 0), 0)` — note the
weights are *not* clamped here. -/
def totalWeight (items : List WheelItem) : Rat :=
  items.foldl (fun sum it => sum + it.weight) 0

/-- One entry of the `slices` array (src/components/Wheel.tsx:251-265).
The source's `end` field is called `stop` here (`end` is a Lean keyword). -/
structure Slice where
  idx : Nat
  label : String
  weight : Rat
  start : Rat
  stop : Rat
  mid : Rat
deriving DecidableEq, Repr

/-- The loop body of the `slices` computation (src/components/Wheel.tsx:254-264). -/
def slicesAux (total : Rat) (items : List WheelItem) (idx : Nat) (start : Rat) :
    List Slice :=
  match items with
  | [] => []
  | it :: rest =>
    let w := clampR it.weight 0 1000000000
    let deg := w / total * 360
    let stop := start + deg
    { idx := idx, label := it.label, weight := w,
      start := start, stop := stop, mid := (start + stop) / 2 }
      :: slicesAux total rest (idx + 1) stop

/-- `slices` (src/components/Wheel.tsx:251-265):
`if (!items.length || totalWeight <= 0) return [];` then the accumulation. -/
def slices (items : List WheelItem) : List Slice :=
  if items.length = 0 ∨ totalWeight items ≤ 0 then []
  else slicesAux (totalWeight items) items 0 0

/-- The accumulation loop of `pickWeightedIndex`
(src/components/Wheel.tsx:529-533). -/
def pickFrom (r : Rat) (acc : Rat) (i : Nat) (items : List WheelItem)
    (fallback : Nat) : Nat :=
  match items with
  | [] => fallback
  | it :: rest =>
    let acc2 := acc + clampR it.weight 0 1000000000
    if r < acc2 then i else pickFrom r acc2 (i + 1) rest fallback

/-- `pickWeightedIndex` (src/components/Wheel.tsx:527-535), with the value of
`Math.random()` (a number in `[0,1)`) passed explicitly as `rnd`.  The draw is
`r = Math.random() * totalWeight`; on falling through the loop it returns
`Math.max(0, items.length - 1)`. -/
def pickWeightedIndex (items : List WheelItem) (rnd : Rat) : Nat :=
  pickFrom (rnd * totalWeight items) 0 0 items (max 0 (items.length - 1))

/-- The prize-selection part of `spin` (src/components/Wheel.tsx:537-553):
`if (!slices.length) return;` — for an empty or non-positive-total-weight
item list no winner is drawn and no prize entry is produced — otherwise the
winner index is `pickWeightedIndex()`. -/
def spinSelect (items : List WheelItem) (rnd : Rat) : Option Nat :=
  if (slices items).length = 0 then none
  else some (pickWeightedIndex items rnd)

/-! ### Redeem rate (src/lib/redeemRate.ts:4-30) -/

/-- The count returned for the first query of
`getRedeemRateForMerchantLast7Days`: spins with the given merchant whose
`dateKey` is among `dateKeys` (src/lib/redeemRate.ts:9-15). -/
def issuedCount (s : Store) (merchantId : String) (dateKeys : List String) : Nat :=
  (s.spins.filter (fun r =>
    r.merchantId == merchantId && dateKeys.contains r.dateKey)).length

/-- The count returned for the second query: the same filter plus
`status == "redeemed"` (src/lib/redeemRate.ts:20-27). -/
def redeemedCount (s : Store) (merchantId : String) (dateKeys : List String) : Nat :=
  (s.spins.filter (fun r =>
    r.merchantId == merchantId && dateKeys.contains r.dateKey &&
      r.status == SpinStatus.redeemed)).length

/-- Model of `getRedeemRateForMerchantLast7Days` (src/lib/redeemRate.ts:4-30):
`if (!issued) return 0;` then `redeemed / issued`. -/
def getRedeemRateForMerchantLast7Days (s : Store) (merchantId : String)
    (dateKeys : List String) : Rat :=
  let issued := issuedCount s merchantId dateKeys
  if issued = 0 then 0
  else (redeemedCount s merchantId dateKeys : Rat) / (issued : Rat)

/-! ### Helper lemmas -/

/-- Auxiliary: `Char.ofNat` round-trips on code points below the surrogate
range. -/
theorem char_toNat_ofNat (n : Nat) (h : n < 55296) : (Char.ofNat n).toNat = n := by
  rw [Char.ofNat, dif_pos (Or.inl h)]
  rfl

/-- `Char.toUpper` is idempotent. -/
theorem toUpper_idem (c : Char) : Char.toUpper (Char.toUpper c) = Char.toUpper c := by
  simp only [Char.toUpper]
  by_cases h : c.toNat ≥ 97 ∧ c.toNat ≤ 122
  · rw [if_pos h]
    have h1 : (Char.ofNat (c.toNat - 32)).toNat = c.toNat - 32 :=
      char_toNat_ofNat _ (by omega)
    rw [if_neg (by rw [h1]; omega)]
  · rw [if_neg h, if_neg h]

/-- `Char.toUpper` maps whitespace to itself, hence preserves
`jsWhitespaceChar`. -/
theorem ws_toUpper (c : Char) :
    jsWhitespaceChar (Char.toUpper c) = jsWhitespaceChar c := by
  simp only [Char.toUpper]
  by_cases h : c.toNat ≥ 97 ∧ c.toNat ≤ 122
  · rw [if_pos h]
    have h1 : (Char.ofNat (c.toNat - 32)).toNat = c.toNat - 32 :=
      char_toNat_ofNat _ (by omega)
    have hl : jsWhitespaceChar c = false := by
      simp only [jsWhitespaceChar, decide_eq_false_iff_not]
      omega
    have hr : jsWhitespaceChar (Char.ofNat (c.toNat - 32)) = false := by
      simp only [jsWhitespaceChar, decide_eq_false_iff_not, h1]
      omega
    rw [hl, hr]
  · rw [if_neg h]

/-- `dropWhile` is idempotent. -/
theorem dropWhile_idem {α : Type} (p : α → Bool) (l : List α) :
    (l.dropWhile p).dropWhile p = l.dropWhile p := by
  induction l with
  | nil => rfl
  | cons a t ih =>
    by_cases h : p a
    · simp [List.dropWhile_cons, h, ih]
    · simp [List.dropWhile_cons, h]

/-- Trimming the back of a list whose front is clean keeps the front clean. -/
theorem dropWhile_rev_dropWhile {α : Type} (p : α → Bool) (l : List α)
    (h : l.dropWhile p = l) :
    ((l.reverse.dropWhile p).reverse).dropWhile p
      = (l.reverse.dropWhile p).reverse := by
  cases l with
  | nil => simp
  | cons a t =>
    have ha : ¬ p a := by
      intro hpa
      rw [List.dropWhile_cons, if_pos hpa] at h
      have hle := (List.dropWhile_sublist (l := t) p).length_le
      have := congrArg List.length h
      simp at this
      omega
    rw [List.reverse_cons, List.dropWhile_append]
    by_cases he : (t.reverse.dropWhile p).isEmpty
    · rw [if_pos he]
      simp [List.dropWhile_cons, ha]
    · rw [if_neg he, List.reverse_append]
      simp [List.dropWhile_cons, ha]

/-- `jsTrimList` is idempotent. -/
theorem jsTrimList_idem (l : List Char) :
    jsTrimList (jsTrimList l) = jsTrimList l := by
  unfold jsTrimList
  have hA := dropWhile_idem jsWhitespaceChar l
  have hB := dropWhile_rev_dropWhile jsWhitespaceChar
    (l.dropWhile jsWhitespaceChar) hA
  rw [hB, List.reverse_reverse, dropWhile_idem]

/-- Trimming commutes with character-wise upper-casing. -/
theorem jsTrimList_map_toUpper (l : List Char) :
    jsTrimList (l.map Char.toUpper) = (jsTrimList l).map Char.toUpper := by
  have hcomp : jsWhitespaceChar ∘ Char.toUpper = jsWhitespaceChar := by
    funext c
    exact ws_toUpper c
  unfold jsTrimList
  rw [List.dropWhile_map, hcomp, ← List.map_reverse, List.dropWhile_map, hcomp,
    ← List.map_reverse]

/-- The normalization `trim`-then-`toUpperCase` is idempotent.  This is the
heart of claim C9: re-normalizing an already normalized code changes
nothing. -/
theorem normalizeCode_idem (s : String) :
    normalizeCode (normalizeCode s) = normalizeCode s := by
  show String.mk _ = String.mk _
  refine congrArg String.mk ?_
  show (jsTrimList ((jsTrimList s.data).map Char.toUpper)).map Char.toUpper
      = (jsTrimList s.data).map Char.toUpper
  rw [jsTrimList_map_toUpper, jsTrimList_idem, List.map_map]
  have : Char.toUpper ∘ Char.toUpper = Char.toUpper := funext toUpper_idem
  rw [this]

/-- A store with no documents at all: every quota key is fresh and no spin
exists. -/
def freshStore : Store :=
  { spins := []
    quota := fun _ _ _ => none
    merchantDaily := fun _ _ => 0
    userMerchantDaily := fun _ _ _ => 0 }

/-- Successful-path lemma for `createSpin`: when the quota read is positive,
the call returns the code with the post-decrement remaining value, and the
committed quota document for the key holds exactly one unit less. -/
theorem createSpin_ok (s : Store) (uid mid pl : String) (L : Int)
    (dk code spinId : String) (cn sn : Int)
    (h : 0 < quotaRemaining s uid mid dk L) :
    (createSpin s uid mid pl L dk code spinId cn sn).1
      = Except.ok ⟨spinId, code, quotaRemaining s uid mid dk L - 1,
          expiresAtInDays cn 7⟩ ∧
    quotaRemaining (createSpin s uid mid pl L dk code spinId cn sn).2
        uid mid dk L
      = quotaRemaining s uid mid dk L - 1 := by
  have hn : ¬ quotaRemaining s uid mid dk L ≤ 0 := not_le.mpr h
  constructor
  · simp [createSpin, hn]
  · simp only [createSpin]
    rw [if_neg hn]
    simp [quotaRemaining, setQuota]

/-- C7: for every prize list that is empty or whose total weight is ≤ 0, the
prize selector produces no prize entry: `spin` hits the
`if (!slices.length) return;` guard (the realization of `InvalidInput`) and
`pickWeightedIndex` is never consulted. -/
theorem spinSelect_invalid_input (items : List WheelItem) (rnd : Rat)
    (h : items = [] ∨ totalWeight items ≤ 0) :
    spinSelect items rnd = none := by
  have hlen : items.length = 0 ∨ totalWeight items ≤ 0 := by
    rcases h with h | h
    · exact Or.inl (by simp [h])
    · exact Or.inr h
  have hs : slices items = [] := by
    unfold slices
    rw [if_pos hlen]
  simp [spinSelect, hs]

/-- Witness for C7 at the concrete inputs `[]` and a list with total weight
0. -/
theorem spinSelect_invalid_input_witness :
    (([] : List WheelItem) = [] ∨ totalWeight [] ≤ 0) ∧
      spinSelect [] (1/2) = none ∧
    (([⟨"A", 2⟩, ⟨"B", -2⟩] : List WheelItem) = [] ∨
        totalWeight [⟨"A", 2⟩, ⟨"B", -2⟩] ≤ 0) ∧
      spinSelect [⟨"A", 2⟩, ⟨"B", -2⟩] (1/2) = none :=
  ⟨Or.inl rfl, spinSelect_invalid_input [] (1/2) (Or.inl rfl),
   Or.inr (by norm_num [totalWeight]),
   spinSelect_invalid_input [⟨"A", 2⟩, ⟨"B", -2⟩] (1/2)
     (Or.inr (by norm_num [totalWeight]))⟩

/-- C10: `getRedeemRateForMerchantLast7Days` returns 0 when the issued count
is 0 (the `if (!issued) return 0;` guard) and otherwise returns the exact
ratio `redeemed / issued`; the division is only ever evaluated with a nonzero
denominator. -/
theorem redeemRate_cases (s : Store) (mid : String) (dateKeys : List String) :
    (issuedCount s mid dateKeys = 0 →
      getRedeemRateForMerchantLast7Days s mid dateKeys = 0) ∧
    (issuedCount s mid dateKeys ≠ 0 →
      getRedeemRateForMerchantLast7Days s mid dateKeys
          * (issuedCount s mid dateKeys : Rat)
        = (redeemedCount s mid dateKeys : Rat)) := by
  constructor
  · intro h
    simp [getRedeemRateForMerchantLast7Days, h]
  · intro h
    have hq : ((issuedCount s mid dateKeys : Nat) : Rat) ≠ 0 := by
      exact_mod_cast h
    simp only [getRedeemRateForMerchantLast7Days, if_neg h]
    rw [div_mul_cancel₀ _ hq]

/-- A store holding one redeemed spin, used as the C10 witness input. -/
def rateStore : Store :=
  { spins := [{ id := "s1", uid := "u1", merchantId := "m1",
                prizeLabel := "Free Pizza", code := "WD-AAAAAA",
                status := SpinStatus.redeemed, dateKey := "2026-10-11",
                createdAt := 0, expiresAt := 604800000,
                redeemedAt := some 5 }]
    quota := fun _ _ _ => none
    merchantDaily := fun _ _ => 0
    userMerchantDaily := fun _ _ _ => 0 }

/-- Witness for C10 on `rateStore` (nonzero issued count) and on `freshStore`
(zero issued count). -/
theorem redeemRate_cases_witness :
    (issuedCount rateStore "m1" ["2026-10-11"] ≠ 0 ∧
      getRedeemRateForMerchantLast7Days rateStore "m1" ["2026-10-11"]
          * (issuedCount rateStore "m1" ["2026-10-11"] : Rat)
        = (redeemedCount rateStore "m1" ["2026-10-11"] : Rat)) ∧
    (issuedCount freshStore "m1" ["2026-10-11"] = 0 ∧
      getRedeemRateForMerchantLast7Days freshStore "m1" ["2026-10-11"] = 0) :=
  ⟨⟨by decide, (redeemRate_cases rateStore "m1" ["2026-10-11"]).2 (by decide)⟩,
   ⟨by decide, (redeemRate_cases freshStore "m1" ["2026-10-11"]).1 (by decide)⟩⟩

/-- C3: whenever the quota remaining for the key is ≤ 0 — a stored counter
≤ 0, or a fresh key with `dailyLimit ≤ 0` — `createSpin` throws
`"Daily limit reached for this merchant."` (the `QuotaExceeded` failure) and
the transaction aborts with the store untouched: no spin record, no quota
decrement, no aggregate increment. -/
theorem createSpin_quota_exceeded (s : Store) (uid mid pl : String)
    (dailyLimit : Int) (dk code spinId : String) (clientNow serverNow : Int)
    (h : quotaRemaining s uid mid dk dailyLimit ≤ 0) :
    createSpin s uid mid pl dailyLimit dk code spinId clientNow serverNow
      = (Except.error "Daily limit reached for this merchant.", s) := by
  simp only [createSpin]
  rw [if_pos h]

/-- Witness for C3: a fresh key with `dailyLimit = 0`, and a stored counter
that is already 0. -/
theorem createSpin_quota_exceeded_witness :
    (quotaRemaining freshStore "u1" "m1" "2026-10-11" 0 ≤ 0 ∧
      createSpin freshStore "u1" "m1" "Free Pizza" 0 "2026-10-11" "WD-AAAAAA"
          "id1" 0 0
        = (Except.error "Daily limit reached for this merchant.", freshStore)) :=
  ⟨by decide,
   createSpin_quota_exceeded freshStore "u1" "m1" "Free Pizza" 0 "2026-10-11"
     "WD-AAAAAA" "id1" 0 0 (by decide)⟩

/-- C9: `redeemSpinByCode` treats any input code exactly like its normalized
form (whitespace-trimmed, upper-cased) — normalization happens before lookup
and is idempotent; in particular `"  wd-abc123  "` and `"WD-ABC123"` behave
identically against every store. -/
theorem redeemSpinByCode_normalized (s : Store) (code : String)
    (now serverNow : Int) :
    redeemSpinByCode code now serverNow s
      = redeemSpinByCode (normalizeCode code) now serverNow s ∧
    redeemSpinByCode "  wd-abc123  " now serverNow s
      = redeemSpinByCode "WD-ABC123" now serverNow s := by
  have key : ∀ c : String, redeemSpinByCode c now serverNow s
      = redeemSpinByCode (normalizeCode c) now serverNow s := by
    intro c
    unfold redeemSpinByCode redeemRead
    rw [normalizeCode_idem]
  refine ⟨key code, ?_⟩
  have h1 := key "  wd-abc123  "
  have h2 : normalizeCode "  wd-abc123  " = "WD-ABC123" := by decide
  rw [h1, h2]

/-- Every base-36 digit character, upper-cased, is an uppercase letter or a
decimal digit. -/
theorem toUpper_base36_alnum : ∀ d : Fin 36,
    ('A' ≤ Char.toUpper (base36Char d) ∧ Char.toUpper (base36Char d) ≤ 'Z') ∨
    ('0' ≤ Char.toUpper (base36Char d) ∧ Char.toUpper (base36Char d) ≤ '9') := by
  decide

/-- C5 (amended): every code produced by `generateCode` is `"WD-"` followed by
*at most* 6 characters, each an uppercase letter `A`–`Z` or digit `0`–`9`;
the suffix has exactly 6 characters whenever the base-36 expansion of the
`Math.random()` value has at least 6 digits — but `slice(2, 8)` yields fewer
when the expansion is shorter. -/
theorem generateCode_format (digits : List (Fin 36)) :
    ∃ suffix : List Char,
      generateCode digits = "WD-" ++ String.mk suffix ∧
      suffix.length ≤ 6 ∧
      (∀ ch ∈ suffix, ('A' ≤ ch ∧ ch ≤ 'Z') ∨ ('0' ≤ ch ∧ ch ≤ '9')) ∧
      (6 ≤ digits.length → suffix.length = 6) := by
  refine ⟨(((randToString36 digits).data.drop 2).take 6).map Char.toUpper,
    rfl, ?_, ?_, ?_⟩
  · simp [List.length_take]
  · intro ch hch
    simp only [List.mem_map] at hch
    obtain ⟨c, hc, rfl⟩ := hch
    have hc2 : c ∈ (randToString36 digits).data.drop 2 :=
      List.take_subset 6 _ hc
    by_cases hd : digits.isEmpty
    · rw [randToString36, if_pos hd] at hc2
      simp at hc2
    · rw [randToString36, if_neg hd] at hc2
      have h0 : ("0." ++ String.mk (digits.map base36Char)).data
          = '0' :: '.' :: digits.map base36Char := by
        rw [String.data_append]
        rfl
      rw [h0] at hc2
      simp only [List.drop_succ_cons, List.drop_zero] at hc2
      obtain ⟨d, _, rfl⟩ := List.mem_map.mp hc2
      exact toUpper_base36_alnum d
  · intro h6
    have hd : ¬ digits.isEmpty := by
      cases digits with
      | nil => simp at h6
      | cons a t => simp
    rw [randToString36, if_neg hd]
    have : ("0." ++ String.mk (digits.map base36Char)).data
        = '0' :: '.' :: digits.map base36Char := by
      rw [String.data_append]
      rfl
    rw [this]
    simp only [List.drop_succ_cons, List.drop_zero, List.length_map,
      List.length_take]
    omega

/-- C5 counterexample: `Math.random()` can return exactly 0.5 (a dyadic
rational, hence representable); `(0.5).toString(36)` is `"0.i"`, whose
`slice(2, 8)` is the single character `"i"`, so the generated code is
`"WD-I"` — 1 suffix character, not 6 (total length 4, not 9). -/
theorem generateCode_short_cex :
    generateCode [(18 : Fin 36)] = "WD-I" ∧
    (generateCode [(18 : Fin 36)]).length ≠ 9 := by
  constructor
  · decide
  · decide

/-- Witness for C5 at a concrete 6-digit random expansion. -/
theorem generateCode_format_witness :
    ∃ suffix : List Char,
      generateCode [1, 20, 2, 33, 0, 17] = "WD-" ++ String.mk suffix ∧
      suffix.length ≤ 6 ∧
      (∀ ch ∈ suffix, ('A' ≤ ch ∧ ch ≤ 'Z') ∨ ('0' ≤ ch ∧ ch ≤ '9')) ∧
      (6 ≤ ([1, 20, 2, 33, 0, 17] : List (Fin 36)).length →
        suffix.length = 6) :=
  generateCode_format [1, 20, 2, 33, 0, 17]

/-- Failure-path lemma for `createSpin`: a non-positive quota read makes the
call return the quota error. -/
theorem createSpin_fail_fst (s : Store) (uid mid pl : String) (L : Int)
    (dk code spinId : String) (cn sn : Int)
    (h : quotaRemaining s uid mid dk L ≤ 0) :
    (createSpin s uid mid pl L dk code spinId cn sn).1
      = Except.error "Daily limit reached for this merchant." := by
  simp only [createSpin]
  rw [if_pos h]

/-- C1: starting from a fresh (user, merchant, day) quota key with
`dailyLimit = 3`, three consecutive `createSpin` calls succeed with
`remainingAfter` 2, 1, 0 and the fourth fails with the
`"Daily limit reached for this merchant."` error (`QuotaExceeded`). -/
theorem createSpin_fresh_sequence (s : Store) (uid mid pl dk : String)
    (c1 c2 c3 c4 i1 i2 i3 i4 : String) (n1 n2 n3 n4 m1 m2 m3 m4 : Int)
    (h : s.quota uid mid dk = none) :
    (createSpin s uid mid pl 3 dk c1 i1 n1 m1).1
      = Except.ok ⟨i1, c1, 2, expiresAtInDays n1 7⟩ ∧
    (createSpin (createSpin s uid mid pl 3 dk c1 i1 n1 m1).2
        uid mid pl 3 dk c2 i2 n2 m2).1
      = Except.ok ⟨i2, c2, 1, expiresAtInDays n2 7⟩ ∧
    (createSpin (createSpin (createSpin s uid mid pl 3 dk c1 i1 n1 m1).2
        uid mid pl 3 dk c2 i2 n2 m2).2 uid mid pl 3 dk c3 i3 n3 m3).1
      = Except.ok ⟨i3, c3, 0, expiresAtInDays n3 7⟩ ∧
    (createSpin (createSpin (createSpin
        (createSpin s uid mid pl 3 dk c1 i1 n1 m1).2
        uid mid pl 3 dk c2 i2 n2 m2).2 uid mid pl 3 dk c3 i3 n3 m3).2
        uid mid pl 3 dk c4 i4 n4 m4).1
      = Except.error "Daily limit reached for this merchant." := by
  have q0 : quotaRemaining s uid mid dk 3 = 3 := by
    simp [quotaRemaining, h]
  obtain ⟨e1, q1⟩ := createSpin_ok s uid mid pl 3 dk c1 i1 n1 m1
    (by rw [q0]; norm_num)
  rw [q0] at e1 q1
  norm_num at e1 q1
  obtain ⟨e2, q2⟩ := createSpin_ok _ uid mid pl 3 dk c2 i2 n2 m2
    (by rw [q1]; norm_num)
  rw [q1] at e2 q2
  norm_num at e2 q2
  obtain ⟨e3, q3⟩ := createSpin_ok _ uid mid pl 3 dk c3 i3 n3 m3
    (by rw [q2]; norm_num)
  rw [q2] at e3 q3
  norm_num at e3 q3
  exact ⟨e1, e2, e3, createSpin_fail_fst _ uid mid pl 3 dk c4 i4 n4 m4 q3.le⟩

/-- Witness for C1 on the empty store with concrete identities, codes and
clocks. -/
theorem createSpin_fresh_sequence_witness :
    freshStore.quota "u1" "m1" "2026-10-11" = none ∧
    ((createSpin freshStore "u1" "m1" "Free Pizza" 3 "2026-10-11"
        "WD-AAAAAA" "id1" 10 11).1
      = Except.ok ⟨"id1", "WD-AAAAAA", 2, expiresAtInDays 10 7⟩ ∧
    (createSpin (createSpin freshStore "u1" "m1" "Free Pizza" 3 "2026-10-11"
        "WD-AAAAAA" "id1" 10 11).2 "u1" "m1" "Free Pizza" 3 "2026-10-11"
        "WD-BBBBBB" "id2" 20 21).1
      = Except.ok ⟨"id2", "WD-BBBBBB", 1, expiresAtInDays 20 7⟩ ∧
    (createSpin (createSpin (createSpin freshStore "u1" "m1" "Free Pizza" 3
        "2026-10-11" "WD-AAAAAA" "id1" 10 11).2 "u1" "m1" "Free Pizza" 3
        "2026-10-11" "WD-BBBBBB" "id2" 20 21).2 "u1" "m1" "Free Pizza" 3
        "2026-10-11" "WD-CCCCCC" "id3" 30 31).1
      = Except.ok ⟨"id3", "WD-CCCCCC", 0, expiresAtInDays 30 7⟩ ∧
    (createSpin (createSpin (createSpin
        (createSpin freshStore "u1" "m1" "Free Pizza" 3 "2026-10-11"
        "WD-AAAAAA" "id1" 10 11).2 "u1" "m1" "Free Pizza" 3 "2026-10-11"
        "WD-BBBBBB" "id2" 20 21).2 "u1" "m1" "Free Pizza" 3 "2026-10-11"
        "WD-CCCCCC" "id3" 30 31).2 "u1" "m1" "Free Pizza" 3 "2026-10-11"
        "WD-DDDDDD" "id4" 40 41).1
      = Except.error "Daily limit reached for this merchant.") :=
  ⟨rfl, createSpin_fresh_sequence freshStore "u1" "m1" "Free Pizza"
    "2026-10-11" "WD-AAAAAA" "WD-BBBBBB" "WD-CCCCCC" "WD-DDDDDD"
    "id1" "id2" "id3" "id4" 10 20 30 40 11 21 31 41 rfl⟩

/-- C6 (amended): the spin record written by a successful `createSpin` has
`expiresAt` equal to the *client* clock reading at the call plus exactly 7
days; its `createdAt` is the server-assigned commit timestamp, so
`expiresAt = createdAt + 7 days` holds exactly when the two clock readings
coincide. -/
theorem createSpin_expiry (s : Store) (uid mid pl : String) (L : Int)
    (dk code spinId : String) (cn sn : Int)
    (h : 0 < quotaRemaining s uid mid dk L) :
    ∃ r : SpinRec,
      (createSpin s uid mid pl L dk code spinId cn sn).2.spins
          = s.spins ++ [r] ∧
      r.expiresAt = cn + 7 * 24 * 60 * 60 * 1000 ∧
      r.createdAt = sn ∧
      (sn = cn → r.expiresAt = r.createdAt + 7 * 24 * 60 * 60 * 1000) := by
  have hn : ¬ quotaRemaining s uid mid dk L ≤ 0 := not_le.mpr h
  refine ⟨{ id := spinId, uid := uid, merchantId := mid, prizeLabel := pl,
            code := code, status := SpinStatus.issued, dateKey := dk,
            createdAt := sn, expiresAt := expiresAtInDays cn 7,
            redeemedAt := none }, ?_, ?_, rfl, ?_⟩
  · simp only [createSpin]
    rw [if_neg hn]
  · simp [expiresAtInDays]
  · intro he
    simp [expiresAtInDays, he]

/-- Witness for C6 on the empty store with coinciding clocks. -/
theorem createSpin_expiry_witness :
    0 < quotaRemaining freshStore "u1" "m1" "2026-10-11" 3 ∧
    (∃ r : SpinRec,
      (createSpin freshStore "u1" "m1" "Free Pizza" 3 "2026-10-11"
          "WD-EEEEEE" "id9" 100 100).2.spins
        = freshStore.spins ++ [r] ∧
      r.expiresAt = 100 + 7 * 24 * 60 * 60 * 1000 ∧
      r.createdAt = 100 ∧
      ((100 : Int) = 100 →
        r.expiresAt = r.createdAt + 7 * 24 * 60 * 60 * 1000)) :=
  ⟨by decide,
   createSpin_expiry freshStore "u1" "m1" "Free Pizza" 3 "2026-10-11"
     "WD-EEEEEE" "id9" 100 100 (by decide)⟩

/-- C6 counterexample: `expiresAt` is computed from the client clock
(`Date.now()`, here 0) before the transaction, while `createdAt` is the
server commit timestamp (`serverTimestamp()`, here 1000); the stored record
then violates `expiresAt = createdAt + 7 days`. -/
theorem createSpin_expiry_cex :
    ((createSpin freshStore "u1" "m1" "Free Pizza" 3 "2026-10-11" "WD-FFFFFF"
        "id5" 0 1000).2.spins.map (fun r => (r.createdAt, r.expiresAt)))
      = [(1000, 604800000)] ∧
    ¬ ((604800000 : Int) = 1000 + 7 * 24 * 60 * 60 * 1000) := by
  constructor
  · decide
  · decide

/-- C2 (amended): `redeemSpinByCode` returns `NotFound` iff no spin record
carries the normalized code; otherwise, for the record found by the lookup,
it returns `AlreadyRedeemed` iff that record is already redeemed; otherwise
`Expired` iff the stored expiry is *nonzero* and the current time is strictly
after it (the source's `expMs && Date.now() > expMs` skips the check for a
zero expiry); otherwise it marks the record redeemed, records the redemption
timestamp, and returns its prize label and merchant id. -/
theorem redeemSpinByCode_cases (s : Store) (code : String)
    (now serverNow : Int) :
    ((redeemSpinByCode code now serverNow s).1 = RedeemResult.notFound ↔
      ∀ r ∈ s.spins, r.code ≠ normalizeCode code) ∧
    (∀ d, s.spins.find? (fun r => r.code == normalizeCode code) = some d →
      (((redeemSpinByCode code now serverNow s).1
            = RedeemResult.alreadyRedeemed ↔
          d.status = SpinStatus.redeemed) ∧
       ((redeemSpinByCode code now serverNow s).1 = RedeemResult.expired ↔
          (d.status ≠ SpinStatus.redeemed ∧ d.expiresAt ≠ 0 ∧
            now > d.expiresAt)) ∧
       (d.status ≠ SpinStatus.redeemed →
        ¬ (d.expiresAt ≠ 0 ∧ now > d.expiresAt) →
          redeemSpinByCode code now serverNow s =
            (RedeemResult.ok d.prizeLabel d.merchantId,
             { s with spins := s.spins.map fun r =>
                 if r.id = d.id then
                   { r with status := SpinStatus.redeemed,
                            redeemedAt := some serverNow }
                 else r })))) := by
  cases hfind : s.spins.find? (fun r => r.code == normalizeCode code) with
  | none =>
    have hres : redeemSpinByCode code now serverNow s
        = (RedeemResult.notFound, s) := by
      simp [redeemSpinByCode, redeemRead, hfind]
    have hall := List.find?_eq_none.mp hfind
    constructor
    · rw [hres]
      simp only [eq_self_iff_true, true_iff]
      intro r hr
      have := hall r hr
      simpa using this
    · intro d hd
      exact absurd hd (by simp)
  | some d0 =>
    have hmem := List.mem_of_find?_eq_some hfind
    have hcode : d0.code = normalizeCode code := by
      have := List.find?_some hfind
      simpa using this
    have hnotall : ¬ (∀ r ∈ s.spins, r.code ≠ normalizeCode code) := by
      intro hall
      exact hall d0 hmem hcode
    by_cases hst : d0.status = SpinStatus.redeemed
    · have hres : redeemSpinByCode code now serverNow s
          = (RedeemResult.alreadyRedeemed, s) := by
        simp [redeemSpinByCode, redeemRead, hfind, hst]
      refine ⟨by rw [hres]; simp [hnotall], ?_⟩
      intro d hd
      injection hd with hd
      subst hd
      refine ⟨by rw [hres]; simp [hst], by rw [hres]; simp [hst], ?_⟩
      intro hns _
      exact absurd hst hns
    · by_cases hexp : d0.expiresAt ≠ 0 ∧ now > d0.expiresAt
      · have hres : redeemSpinByCode code now serverNow s
            = (RedeemResult.expired, s) := by
          simp [redeemSpinByCode, redeemRead, hfind, hst, hexp]
        refine ⟨by rw [hres]; simp [hnotall], ?_⟩
        intro d hd
        injection hd with hd
        subst hd
        refine ⟨by rw [hres]; simp [hst], ?_, ?_⟩
        · rw [hres]
          simp [hst, hexp.1, hexp.2]
        · intro _ hne
          exact absurd hexp hne
      · have hres : redeemSpinByCode code now serverNow s
            = (RedeemResult.ok d0.prizeLabel d0.merchantId,
               redeemWrite d0.id serverNow s) := by
          simp [redeemSpinByCode, redeemRead, hfind, hst, hexp]
        refine ⟨by rw [hres]; simp [hnotall], ?_⟩
        intro d hd
        injection hd with hd
        subst hd
        refine ⟨by rw [hres]; simp [hst], by rw [hres]; simp [hexp], ?_⟩
        intro _ _
        rw [hres]
        simp [redeemWrite]

/-- An issued, far-future-expiry spin used as the C2 witness input. -/
def okRec : SpinRec :=
  { id := "id1", uid := "u1", merchantId := "m1", prizeLabel := "Free Pizza",
    code := "WD-OKOKOK", status := SpinStatus.issued, dateKey := "2026-10-11",
    createdAt := 0, expiresAt := 604800000, redeemedAt := none }

/-- A store holding only `okRec`. -/
def okStore : Store :=
  { spins := [okRec]
    quota := fun _ _ _ => none
    merchantDaily := fun _ _ => 0
    userMerchantDaily := fun _ _ _ => 0 }

/-- Witness for C2: the success path on `okStore` via the case theorem at a
concrete lookup. -/
theorem redeemSpinByCode_cases_witness :
    okStore.spins.find?
        (fun r => r.code == normalizeCode "wd-okokok") = some okRec ∧
    redeemSpinByCode "wd-okokok" 500 600 okStore =
      (RedeemResult.ok okRec.prizeLabel okRec.merchantId,
       { okStore with spins := okStore.spins.map fun r =>
           if r.id = okRec.id then
             { r with status := SpinStatus.redeemed, redeemedAt := some 600 }
           else r }) :=
  ⟨by decide,
   ((redeemSpinByCode_cases okStore "wd-okokok" 500 600).2 okRec
      (by decide)).2.2 (by decide) (by decide)⟩

/-- An issued spin whose stored expiry millisecond value is 0. -/
def zeroExpRecA : SpinRec :=
  { id := "idz1", uid := "u1", merchantId := "m1", prizeLabel := "Free Pizza",
    code := "WD-ZEROAA", status := SpinStatus.issued, dateKey := "2026-10-11",
    createdAt := 0, expiresAt := 0, redeemedAt := none }

/-- A store holding only `zeroExpRecA`. -/
def zeroExpStoreA : Store :=
  { spins := [zeroExpRecA]
    quota := fun _ _ _ => none
    merchantDaily := fun _ _ => 0
    userMerchantDaily := fun _ _ _ => 0 }

/-- C2 counterexample: a record with stored expiry 0 at current time 5 — the
original claim requires `Expired` (5 is strictly after 0), but the source's
truthiness test `expMs && Date.now() > expMs` skips the expiry check for
`expMs = 0` and the call succeeds instead. -/
theorem redeemSpinByCode_zero_expiry_cex :
    zeroExpStoreA.spins.find?
        (fun r => r.code == normalizeCode "WD-ZEROAA") = some zeroExpRecA ∧
    zeroExpRecA.status ≠ SpinStatus.redeemed ∧
    (5 : Int) > zeroExpRecA.expiresAt ∧
    (redeemSpinByCode "WD-ZEROAA" 5 6 zeroExpStoreA).1 ≠ RedeemResult.expired ∧
    (redeemSpinByCode "WD-ZEROAA" 5 6 zeroExpStoreA).1
      = RedeemResult.ok "Free Pizza" "m1" := by
  refine ⟨by decide, by decide, by decide, by decide, by decide⟩

/-- C8 (amended): for a spin record that the lookup finds, with status
`issued` and a *nonzero* stored expiry strictly before the current time,
`redeemSpinByCode` fails with `Expired` and the store — in particular that
record's status and absent redemption timestamp — is completely unchanged. -/
theorem redeemSpinByCode_expired_frame (s : Store) (code : String)
    (now serverNow : Int) (d : SpinRec)
    (hfind : s.spins.find? (fun r => r.code == normalizeCode code) = some d)
    (hst : d.status = SpinStatus.issued)
    (hnz : d.expiresAt ≠ 0) (hlt : d.expiresAt < now) :
    redeemSpinByCode code now serverNow s = (RedeemResult.expired, s) := by
  have hnred : ¬ d.status = SpinStatus.redeemed := by
    rw [hst]
    simp
  simp [redeemSpinByCode, redeemRead, hfind, hnred, hnz, hlt]

/-- An issued spin whose nonzero expiry (day 7 in ms) has passed at day 8. -/
def expiredRec : SpinRec :=
  { id := "ide1", uid := "u1", merchantId := "m1", prizeLabel := "Free Pizza",
    code := "WD-EXP111", status := SpinStatus.issued, dateKey := "2026-10-11",
    createdAt := 0, expiresAt := 604800000, redeemedAt := none }

/-- A store holding only `expiredRec`. -/
def expiredStore : Store :=
  { spins := [expiredRec]
    quota := fun _ _ _ => none
    merchantDaily := fun _ _ => 0
    userMerchantDaily := fun _ _ _ => 0 }

/-- Witness for C8: redemption attempted 8 days (691200000 ms) after issuance
of a 7-day code. -/
theorem redeemSpinByCode_expired_frame_witness :
    (expiredStore.spins.find?
        (fun r => r.code == normalizeCode "WD-EXP111") = some expiredRec ∧
     expiredRec.status = SpinStatus.issued ∧
     expiredRec.expiresAt ≠ 0 ∧
     expiredRec.expiresAt < 691200000) ∧
    redeemSpinByCode "WD-EXP111" 691200000 691200001 expiredStore
      = (RedeemResult.expired, expiredStore) :=
  ⟨⟨by decide, by decide, by decide, by decide⟩,
   redeemSpinByCode_expired_frame expiredStore "WD-EXP111" 691200000 691200001
     expiredRec (by decide) (by decide) (by decide) (by decide)⟩

/-- An issued spin with stored expiry 0 (for the C8 counterexample). -/
def zeroExpRecB : SpinRec :=
  { id := "idz2", uid := "u2", merchantId := "m2", prizeLabel := "Free Taco",
    code := "WD-ZEROBB", status := SpinStatus.issued, dateKey := "2026-10-11",
    createdAt := 0, expiresAt := 0, redeemedAt := none }

/-- A store holding only `zeroExpRecB`. -/
def zeroExpStoreB : Store :=
  { spins := [zeroExpRecB]
    quota := fun _ _ _ => none
    merchantDaily := fun _ _ => 0
    userMerchantDaily := fun _ _ _ => 0 }

/-- C8 counterexample: an issued record whose stored expiry (0) is strictly
before the current time (3) is *not* failed with `Expired`: the zero value is
falsy, the check is skipped, the call succeeds and flips the status to
redeemed — the record does not remain `issued`. -/
theorem redeemSpinByCode_zero_expiry_cex_frame :
    zeroExpRecB.status = SpinStatus.issued ∧
    zeroExpRecB.expiresAt < 3 ∧
    (redeemSpinByCode "WD-ZEROBB" 3 4 zeroExpStoreB).1
      = RedeemResult.ok "Free Taco" "m2" ∧
    (redeemSpinByCode "WD-ZEROBB" 3 4 zeroExpStoreB).2.spins.map
        SpinRec.status = [SpinStatus.redeemed] := by
  refine ⟨by decide, by decide, by decide, by decide⟩

/-- An issued, unexpired spin targeted by two concurrent redemptions. -/
def raceRec : SpinRec :=
  { id := "idr1", uid := "u1", merchantId := "m1", prizeLabel := "Free Pizza",
    code := "WD-RACE77", status := SpinStatus.issued, dateKey := "2026-10-11",
    createdAt := 0, expiresAt := 604800000, redeemedAt := none }

/-- A store holding only `raceRec`. -/
def raceStore : Store :=
  { spins := [raceRec]
    quota := fun _ _ _ => none
    merchantDaily := fun _ _ => 0
    userMerchantDaily := fun _ _ _ => 0 }

/-- C4: the claim fails on the code.  `redeemSpinByCode` is a plain
`getDocs` query followed by a plain unconditional `updateDoc` — no
transaction and no status-conditional write — so in the schedule where both
concurrent calls run their query before either runs its update (modelled by
`raceBothRedeem`), both observe the issued record and both return success:
a double redemption of a single-use reward, not "exactly one success and one
`AlreadyRedeemed`". -/
theorem redeem_race_both_succeed :
    raceRec.status = SpinStatus.issued ∧
    (5 : Int) ≤ raceRec.expiresAt ∧
    (raceBothRedeem "WD-RACE77" 5 6 raceStore).1
      = RedeemResult.ok "Free Pizza" "m1" ∧
    (raceBothRedeem "WD-RACE77" 5 6 raceStore).2.1
      = RedeemResult.ok "Free Pizza" "m1" := by
  refine ⟨by decide, by decide, by decide, by decide⟩
